import Mathlib

/-!
Shallow embedding of the emission-calculation core of the carbon-emission
web application (Bandung–Jakarta corridor estimator).

Embedded source files:
* `src/carbon-emission-app/src/constants/config.js` — rate tables,
* `src/carbon-emission-app/src/utils/calculations.js` — the calculation engine,
* `src/carbon-emission-app/src/services/bmkgService.js` — `getWeatherAdjustmentFactor`,
* `src/unnamed/part_000` (directions service) — `estimateRouteAdjustments`.

Numbers are embedded as exact rationals (`ℚ`); JavaScript strings as Lean
`String`; a JavaScript `undefined` string field is represented by `""`
(both are falsy, and both compare unequal to every nonempty literal, which
is the only way the embedded code inspects these fields).  The JavaScript
`x || d` default idiom on numbers is embedded explicitly: it replaces both
a missing value and the value `0` by the default `d`, because `0` is falsy
in JavaScript.
-/

namespace CarbonApp

/-- Substring helper: `charsStartWith sub l` is true iff `sub` is an initial
segment of `l` (character by character). -/
def charsStartWith : List Char → List Char → Bool
  | [], _ => true
  | _ :: _, [] => false
  | a :: as, b :: bs => a == b && charsStartWith as bs

/-- Substring helper: `charsContain sub hay` is true iff `sub` occurs
contiguously somewhere in `hay`. -/
def charsContain (sub : List Char) : List Char → Bool
  | [] => sub.isEmpty
  | c :: rest => charsStartWith sub (c :: rest) || charsContain sub rest

/-- Embedding of JavaScript `s.includes(sub)` on strings. -/
def strContains (s sub : String) : Bool :=
  charsContain sub.data s.data

/-- ASCII lowercase of one character, embedding the effect of JavaScript
`toLowerCase` on the ASCII range (the only range the embedded code compares
against). -/
def charToLower (c : Char) : Char :=
  if 65 ≤ c.toNat ∧ c.toNat ≤ 90 then Char.ofNat (c.toNat + 32) else c

/-- Embedding of JavaScript `s.toLowerCase()` (ASCII range). -/
def strToLower (s : String) : String :=
  ⟨s.data.map charToLower⟩

/-- Embedding of the JavaScript `x || d` default idiom on a numeric field:
`0` (and a missing value, represented by `none`) is falsy and is replaced
by the default. -/
def jsOrQ (x : Option ℚ) (d : ℚ) : ℚ :=
  match x with
  | some v => if v = 0 then d else v
  | none => d

/-- Embedding of the JavaScript `s || d` default idiom on a string field:
the empty string (standing also for `undefined`) is falsy and is replaced
by the default. -/
def jsOrStr (s d : String) : String :=
  if s = "" then d else s

/-- Embedding of `config.js` `consumptionRates`, combined with the lookup idiom
`consumptionRates[mode] || 0` of `calculateFuelConsumption`: an unknown
mode yields rate `0`. -/
def consumptionRates (mode : String) : ℚ :=
  if mode = "mobil" then 0.069
  else if mode = "bus" then 0.091
  else if mode = "motor" then 0.02
  else if mode = "ka_argo" then 0.05
  else if mode = "kcic" then 0.036
  else 0

/-- Embedding of `config.js` `emissionFactors` as an optional-valued lookup table
(`none` for a key absent from the object). -/
def emissionFactorsRaw (energySource : String) : Option ℚ :=
  if energySource = "bahan_bakar" then some 2.6
  else if energySource = "listrik_grid" then some 0.85
  else if energySource = "biofuel" then some 0.5
  else if energySource = "listrik_renewable" then some 0
  else none

/-- The factor resolution inside `calculateEmission`:
`emissionFactors[energySource] || emissionFactors.bahan_bakar`.
Because `||` is the JavaScript falsy-default, a stored factor of `0`
(the `listrik_renewable` entry) is replaced by the fossil factor `2.6`
exactly like an absent key. -/
def resolveEmissionFactor (energySource : String) : ℚ :=
  jsOrQ (emissionFactorsRaw energySource) 2.6

/-- Embedding of `calculations.js` `calculateEmission`. -/
def calculateEmission (fuelConsumption : ℚ) (energySource : String) : ℚ :=
  fuelConsumption * resolveEmissionFactor energySource

/-- Scenario parameters as the calculation engine reads them: the fields
`traffic`, `cuaca`, `loadFactor`, `energy` of the plain scenario object.
`""` stands for an absent field. -/
structure ScenarioParams where
  traffic : String
  cuaca : String
  loadFactor : String
  energy : String
deriving DecidableEq, Repr

/-- Embedding of `calculations.js` `getAdjustmentFactor`, mirroring the sequence of
independent `if (...) factor *= ...` statements. -/
def getAdjustmentFactor (params : ScenarioParams) : ℚ :=
  let factor : ℚ := 1
  let factor := if params.traffic = "padat" then factor * 1.1 else factor
  let factor := if params.traffic = "sangat_padat" then factor * 1.2 else factor
  let factor := if params.cuaca = "hujan_ringan" then factor * 1.05 else factor
  let factor := if params.cuaca = "hujan_lebat" then factor * 1.1 else factor
  let factor := if params.loadFactor = "peak" then factor * 1.15 else factor
  factor

/-- Embedding of `calculations.js` `calculateFuelConsumption`:
`baseRate * distance * adjustmentFactor`, with no input validation. -/
def calculateFuelConsumption (mode : String) (distance : ℚ)
    (adjustments : ScenarioParams) : ℚ :=
  consumptionRates mode * distance * getAdjustmentFactor adjustments

/-- Rounding to 2 decimals, embedding `parseFloat(x.toFixed(2))`. -/
def round2 (x : ℚ) : ℚ :=
  (round (x * 100) : ℚ) / 100

/-- Rounding to 3 decimals, embedding `parseFloat(x.toFixed(3))`. -/
def round3 (x : ℚ) : ℚ :=
  (round (x * 1000) : ℚ) / 1000

/-- The output record of `calculateComprehensiveEmission`. -/
structure CalculationResult where
  mode : String
  distance : ℚ
  fuelConsumption : ℚ
  emission : ℚ
  energySource : String
  scenario : ScenarioParams
deriving DecidableEq, Repr

/-- Embedding of `calculations.js` `calculateComprehensiveEmission`. -/
def calculateComprehensiveEmission (mode : String) (distance : ℚ)
    (scenario : ScenarioParams) : CalculationResult :=
  let fuelConsumption := calculateFuelConsumption mode distance scenario
  let energySource := jsOrStr scenario.energy "bahan_bakar"
  let emission := calculateEmission fuelConsumption energySource
  { mode := mode
    distance := round2 distance
    fuelConsumption := round3 fuelConsumption
    emission := round3 emission
    energySource := energySource
    scenario := scenario }

/-- Embedding of `calculations.js` `calculateAllModes`. -/
def calculateAllModes (distance : ℚ) (scenario : ScenarioParams) :
    List CalculationResult :=
  ["mobil", "bus", "motor", "ka_argo", "kcic"].map
    (fun mode => calculateComprehensiveEmission mode distance scenario)

/-- The `current` object of a BMKG weather snapshot, with the fields read by
`getWeatherAdjustmentFactor`.  `condition = ""` stands for an absent
condition text (the code lowercases it and defaults it to the empty string);
`temperature`/`windSpeed` are `Option`s because the code applies the falsy
default idiom to them (`temperature || 25`, `windSpeed || 0`). -/
structure WeatherCurrent where
  condition : String
  temperature : Option ℚ
  windSpeed : Option ℚ
deriving DecidableEq, Repr

/-- Embedding of `bmkgService.js` `getWeatherAdjustmentFactor`.  Here `none` stands for a
`weatherData` without a `current` object, where the code returns `1.0`
unchanged. -/
def getWeatherAdjustmentFactor (weatherData : Option WeatherCurrent) : ℚ :=
  match weatherData with
  | none => 1
  | some current =>
    let factor : ℚ := 1
    let condition := strToLower current.condition
    let factor :=
      if strContains condition "hujan ringan" || strContains condition "light rain" then
        factor * 1.05
      else if strContains condition "hujan lebat" || strContains condition "heavy rain"
          || strContains condition "hujan" then
        factor * 1.1
      else factor
    let temp := jsOrQ current.temperature 25
    let factor := if temp < 15 ∨ temp > 35 then factor * 1.03 else factor
    let windSpeed := jsOrQ current.windSpeed 0
    let factor := if windSpeed > 15 then factor * 1.02 else factor
    factor

/-- Route metadata as `estimateRouteAdjustments` reads it:
`routeData.warnings` (checked for presence), `routeData.distance.km` and
`routeData.duration.hours`. -/
structure RouteData where
  warnings : Option (List String)
  distanceKm : ℚ
  durationHours : ℚ
deriving DecidableEq, Repr

/-- The record returned by `estimateRouteAdjustments`. -/
structure RouteAdjustments where
  traffic : ℚ
  terrain : ℚ
  urban : ℚ
deriving DecidableEq, Repr

/-- Embedding of `part_000` (directions service) `estimateRouteAdjustments`.  The
`terrain` field is initialized to `1.0` and never changed. -/
def estimateRouteAdjustments (routeData : RouteData) : RouteAdjustments :=
  let traffic :=
    match routeData.warnings with
    | some ws =>
      if ws.any (fun warning =>
          strContains (strToLower warning) "traffic" ||
          strContains (strToLower warning) "congestion") then (1.1 : ℚ)
      else 1
    | none => 1
  let avgSpeed := routeData.distanceKm / routeData.durationHours
  let urban : ℚ :=
    if avgSpeed < 30 then 1.15
    else if avgSpeed > 80 then 0.95
    else 1
  { traffic := traffic, terrain := 1, urban := urban }

/-- The all-default scenario: traffic `normal`, weather `normal`,
load factor `standar`, energy source `bahan_bakar`. -/
def defaultScenario : ScenarioParams :=
  { traffic := "normal", cuaca := "normal", loadFactor := "standar",
    energy := "bahan_bakar" }

/-- A concrete route used to exercise `estimateRouteAdjustments`: one
traffic warning, 100 km in 2 hours (average speed 50, the middle urban
band). -/
def sampleRoute : RouteData :=
  { warnings := some ["Heavy TRAFFIC ahead"], distanceKm := 100,
    durationHours := 2 }

/-! ### Helper lemmas -/

/-- The sequential `factor *= ...` statements of `getAdjustmentFactor`
collapse to a product of independent conditional multipliers. -/
lemma adjFactor_prod (p : ScenarioParams) :
    getAdjustmentFactor p =
      (if p.traffic = "padat" then (1.1 : ℚ) else 1) *
        (if p.traffic = "sangat_padat" then (1.2 : ℚ) else 1) *
        (if p.cuaca = "hujan_ringan" then (1.05 : ℚ) else 1) *
        (if p.cuaca = "hujan_lebat" then (1.1 : ℚ) else 1) *
        (if p.loadFactor = "peak" then (1.15 : ℚ) else 1) := by
  unfold getAdjustmentFactor
  split_ifs <;> norm_num

/-- The adjustment factor always lies between `1` and `1.518`
(the `padat`/`sangat_padat` and `hujan_ringan`/`hujan_lebat` conditions are
mutually exclusive, so at most one multiplier per category applies). -/
lemma adjFactor_bounds (p : ScenarioParams) :
    1 ≤ getAdjustmentFactor p ∧ getAdjustmentFactor p ≤ 1.518 := by
  unfold getAdjustmentFactor
  split_ifs <;> first | (exfalso; simp_all; done) | (constructor <;> norm_num)

lemma adjFactor_pos (p : ScenarioParams) : 0 < getAdjustmentFactor p :=
  lt_of_lt_of_le one_pos (adjFactor_bounds p).1

/-! ### Claim theorems -/

/-- C3: for every scenario, `getAdjustmentFactor` returns exactly the
product, over a base of `1`, of the applicable multipliers — `×1.1` for
traffic `padat`, `×1.2` for traffic `sangat_padat`, `×1.05` for weather
`hujan_ringan`, `×1.1` for weather `hujan_lebat`, `×1.15` for load factor
`peak` — and the all-default scenario yields exactly `1`. -/
theorem adjustment_factor_is_product_of_multipliers (p : ScenarioParams) :
    getAdjustmentFactor p =
      (if p.traffic = "padat" then (1.1 : ℚ) else 1) *
        (if p.traffic = "sangat_padat" then (1.2 : ℚ) else 1) *
        (if p.cuaca = "hujan_ringan" then (1.05 : ℚ) else 1) *
        (if p.cuaca = "hujan_lebat" then (1.1 : ℚ) else 1) *
        (if p.loadFactor = "peak" then (1.15 : ℚ) else 1) ∧
    getAdjustmentFactor defaultScenario = 1 :=
  ⟨adjFactor_prod p, by simp [getAdjustmentFactor, defaultScenario]⟩

/-- C9: for every scenario value, including arbitrary strings in every
field, the adjustment factor lies between `1` and `1.2 * 1.1 * 1.15`
(= 1.518); no combination lowers it below the base `1`. -/
theorem adjustment_factor_bounded (p : ScenarioParams) :
    1 ≤ getAdjustmentFactor p ∧ getAdjustmentFactor p ≤ 1.2 * 1.1 * 1.15 := by
  refine ⟨(adjFactor_bounds p).1, le_trans (adjFactor_bounds p).2 ?_⟩
  norm_num

/-- C8: for every distance and scenario, `calculateAllModes` returns
exactly 5 results whose `mode` fields are, in order,
`mobil`, `bus`, `motor`, `ka_argo`, `kcic`. -/
theorem all_modes_five_in_fixed_order (d : ℚ) (s : ScenarioParams) :
    (calculateAllModes d s).length = 5 ∧
    (calculateAllModes d s).map (fun r => r.mode) =
      ["mobil", "bus", "motor", "ka_argo", "kcic"] := by
  constructor <;> simp [calculateAllModes, calculateComprehensiveEmission]

/-- C6: `calculateComprehensiveEmission` for mode `mobil`, distance 150 and
the all-default scenario returns fuel consumption `0.069 * 150 * 1 = 10.35`
liters and emission `10.35 * 2.6 = 26.91` kg after 3-decimal rounding. -/
theorem car_150_default_scenario_result :
    (calculateComprehensiveEmission "mobil" 150 defaultScenario).fuelConsumption
        = 0.069 * 150 * 1 ∧
    (calculateComprehensiveEmission "mobil" 150 defaultScenario).emission
        = 10.35 * 2.6 := by
  constructor <;>
    · simp [calculateComprehensiveEmission, calculateFuelConsumption,
        calculateEmission, consumptionRates, getAdjustmentFactor, defaultScenario,
        jsOrStr, jsOrQ, resolveEmissionFactor, emissionFactorsRaw, round3]
      norm_num [round_eq]

/-- C1 (code bug): the `listrik_renewable` emission factor is stored as `0`,
but `calculateEmission` resolves the factor with the falsy-default idiom
`emissionFactors[energySource] || emissionFactors.bahan_bakar`, so the `0`
is replaced by the fossil factor `2.6`: a fuel consumption of 10 with
energy source `listrik_renewable` yields emission `26`, not `0`, and the
`mobil`/150 km scenario with renewable energy yields `26.91`, not `0`. -/
theorem renewable_emission_uses_fossil_factor :
    emissionFactorsRaw "listrik_renewable" = some 0 ∧
    calculateEmission 10 "listrik_renewable" = 26 ∧
    (calculateComprehensiveEmission "mobil" 150
        { defaultScenario with energy := "listrik_renewable" }).emission = 26.91 := by
  refine ⟨by simp [emissionFactorsRaw], ?_, ?_⟩ <;>
    · simp [calculateComprehensiveEmission, calculateFuelConsumption,
        calculateEmission, consumptionRates, getAdjustmentFactor, defaultScenario,
        jsOrStr, jsOrQ, resolveEmissionFactor, emissionFactorsRaw, round3]
      norm_num [round_eq]

/-- C2 (counterexample): `calculateFuelConsumption` performs no input
validation: at distance `-1` for mode `mobil` it returns the ordinary
numeric result `0.069 * (-1) * 1 = -0.069` instead of failing with an
`InvalidInput` error — the negative distance flows straight into the
arithmetic. -/
theorem fuel_negative_distance_counterexample :
    calculateFuelConsumption "mobil" (-1) defaultScenario = -0.069 ∧
    calculateFuelConsumption "mobil" (-1) defaultScenario < 0 := by
  constructor <;>
    · simp [calculateFuelConsumption, consumptionRates, getAdjustmentFactor,
        defaultScenario]
      try norm_num

/-- C2 (amended): for every negative distance, every scenario and every
known mode, `calculateFuelConsumption` silently returns the negative
number `baseRate * distance * adjustmentFactor`; no `InvalidInput` check
exists anywhere in the calculation path. -/
theorem fuel_negative_distance_propagates (mode : String) (d : ℚ)
    (s : ScenarioParams) (hd : d < 0)
    (hm : mode ∈ (["mobil", "bus", "motor", "ka_argo", "kcic"] : List String)) :
    calculateFuelConsumption mode d s =
      consumptionRates mode * d * getAdjustmentFactor s ∧
    calculateFuelConsumption mode d s < 0 := by
  refine ⟨rfl, ?_⟩
  have hrate : 0 < consumptionRates mode := by
    fin_cases hm <;> · simp [consumptionRates]; norm_num
  exact mul_neg_of_neg_of_pos (mul_neg_of_pos_of_neg hrate hd) (adjFactor_pos s)

/-- Witness for C2 (amended) at mode `mobil`, distance `-1`, default
scenario. -/
theorem fuel_negative_distance_propagates_witness :
    ((-1 : ℚ) < 0 ∧
      "mobil" ∈ (["mobil", "bus", "motor", "ka_argo", "kcic"] : List String)) ∧
    (calculateFuelConsumption "mobil" (-1) defaultScenario =
        consumptionRates "mobil" * (-1) * getAdjustmentFactor defaultScenario ∧
      calculateFuelConsumption "mobil" (-1) defaultScenario < 0) :=
  ⟨⟨by norm_num, by simp⟩,
    fuel_negative_distance_propagates "mobil" (-1) defaultScenario
      (by norm_num) (by simp)⟩

/-- C7: for every mode, non-negative distance and scenario, the
orchestrator rounds exactly once at its output boundary: the `emission`
field equals the 3-decimal rounding of the unrounded product
`baseRate * distance * adjustmentFactor * emissionFactor`, and the
`fuelConsumption` field equals the 3-decimal rounding of
`baseRate * distance * adjustmentFactor` — the emission is computed from
the unrounded fuel consumption, never from the rounded field. -/
theorem emission_rounded_once_at_boundary (mode : String) (d : ℚ)
    (s : ScenarioParams) (_hd : 0 ≤ d) :
    (calculateComprehensiveEmission mode d s).emission =
      round3 (consumptionRates mode * d * getAdjustmentFactor s *
        resolveEmissionFactor (jsOrStr s.energy "bahan_bakar")) ∧
    (calculateComprehensiveEmission mode d s).fuelConsumption =
      round3 (consumptionRates mode * d * getAdjustmentFactor s) :=
  ⟨rfl, rfl⟩

/-- Witness for C7 at mode `mobil`, distance 150, default scenario. -/
theorem emission_rounded_once_at_boundary_witness :
    (0 : ℚ) ≤ 150 ∧
    ((calculateComprehensiveEmission "mobil" 150 defaultScenario).emission =
        round3 (consumptionRates "mobil" * 150 * getAdjustmentFactor defaultScenario *
          resolveEmissionFactor (jsOrStr defaultScenario.energy "bahan_bakar")) ∧
      (calculateComprehensiveEmission "mobil" 150 defaultScenario).fuelConsumption =
        round3 (consumptionRates "mobil" * 150 * getAdjustmentFactor defaultScenario)) :=
  ⟨by norm_num,
    emission_rounded_once_at_boundary "mobil" 150 defaultScenario (by norm_num)⟩

/-- C4 (counterexample): a snapshot whose condition text is the generic
English word `rain` (temperature 25, wind 0) gets weather adjustment factor
`1`, not the `1.1` the claim assigns to a generic "rain" condition: the
generic-rain substring of the code is the Indonesian `hujan`, so plain English
`rain` matches no branch. -/
theorem weather_generic_rain_counterexample :
    getWeatherAdjustmentFactor (some ⟨"rain", some 25, some 0⟩) = 1 ∧
    getWeatherAdjustmentFactor (some ⟨"rain", some 25, some 0⟩) ≠ 1.1 := by
  have h : getWeatherAdjustmentFactor (some ⟨"rain", some 25, some 0⟩) = 1 := by
    decide
  refine ⟨h, ?_⟩
  rw [h]
  norm_num

/-- C4 (amended): the weather adjustment factor is the product, over a base
of `1`, of: `×1.05` if the lowercased condition text contains
`hujan ringan` or `light rain`; otherwise `×1.1` if it contains
`hujan lebat`, `heavy rain`, or the generic Indonesian `hujan`; `×1.03` if
the effective temperature (a reported `0` falls back to the default 25) is
below 15 or above 35; `×1.02` if the wind speed exceeds 15.  In particular
the snapshot (temperature 40, wind 20, condition `heavy rain`) yields
`1.1 * 1.03 * 1.02 = 1.15566`. -/
theorem weather_factor_formula (w : WeatherCurrent) :
    getWeatherAdjustmentFactor (some w) =
      (if strContains (strToLower w.condition) "hujan ringan" = true ∨
          strContains (strToLower w.condition) "light rain" = true then (1.05 : ℚ)
        else if strContains (strToLower w.condition) "hujan lebat" = true ∨
            strContains (strToLower w.condition) "heavy rain" = true ∨
            strContains (strToLower w.condition) "hujan" = true then 1.1
        else 1) *
      (if jsOrQ w.temperature 25 < 15 ∨ jsOrQ w.temperature 25 > 35
        then (1.03 : ℚ) else 1) *
      (if jsOrQ w.windSpeed 0 > 15 then (1.02 : ℚ) else 1) ∧
    getWeatherAdjustmentFactor (some ⟨"heavy rain", some 40, some 20⟩)
      = 1.1 * 1.03 * 1.02 := by
  constructor
  · simp only [getWeatherAdjustmentFactor, Bool.or_eq_true, or_assoc]
    split_ifs <;> norm_num
  · have hlight : (strContains (strToLower "heavy rain") "hujan ringan" ||
        strContains (strToLower "heavy rain") "light rain") = false := by decide
    have hheavy : (strContains (strToLower "heavy rain") "hujan lebat" ||
        strContains (strToLower "heavy rain") "heavy rain" ||
        strContains (strToLower "heavy rain") "hujan") = true := by decide
    norm_num [getWeatherAdjustmentFactor, hlight, hheavy, jsOrQ]

/-- C10: the weather adjustment factor applies at most one of the two rain
multipliers (the branches are an if/else-if chain), so for every input —
including `none` for missing data — the factor is at most
`1.1 * 1.03 * 1.02 = 1.15566` and never equals the double-rain product
`1.05 * 1.1 = 1.155`. -/
theorem weather_factor_single_rain_bound (w : Option WeatherCurrent) :
    getWeatherAdjustmentFactor w ≤ 1.1 * 1.03 * 1.02 ∧
    getWeatherAdjustmentFactor w ≠ 1.05 * 1.1 := by
  cases w with
  | none => constructor <;> · simp [getWeatherAdjustmentFactor]; norm_num
  | some current =>
    unfold getWeatherAdjustmentFactor
    dsimp only
    split_ifs <;> constructor <;> norm_num

/-- C5: for every route, `estimateRouteAdjustments` returns
`traffic = 1.1` exactly when some warning string contains `traffic` or
`congestion` case-insensitively, and `traffic = 1` otherwise; and for
every route with positive duration, `urban = 1.15` when the average speed
`distanceKm / durationHours` is below 30, `0.95` when it is above 80, and
`1` otherwise — including at exactly 30 and exactly 80. -/
theorem route_adjustments_match_spec (r : RouteData) :
    ((estimateRouteAdjustments r).traffic = 1.1 ↔
      ∃ ws, r.warnings = some ws ∧ ∃ w ∈ ws,
        (strContains (strToLower w) "traffic" = true ∨
          strContains (strToLower w) "congestion" = true)) ∧
    ((¬ ∃ ws, r.warnings = some ws ∧ ∃ w ∈ ws,
        (strContains (strToLower w) "traffic" = true ∨
          strContains (strToLower w) "congestion" = true)) →
      (estimateRouteAdjustments r).traffic = 1) ∧
    (0 < r.durationHours →
      (r.distanceKm / r.durationHours < 30 →
        (estimateRouteAdjustments r).urban = 1.15) ∧
      (r.distanceKm / r.durationHours > 80 →
        (estimateRouteAdjustments r).urban = 0.95) ∧
      ((r.distanceKm / r.durationHours = 30 ∨ r.distanceKm / r.durationHours = 80) →
        (estimateRouteAdjustments r).urban = 1) ∧
      (¬ r.distanceKm / r.durationHours < 30 → ¬ r.distanceKm / r.durationHours > 80 →
        (estimateRouteAdjustments r).urban = 1)) := by
  have hurb : (estimateRouteAdjustments r).urban =
      (if r.distanceKm / r.durationHours < 30 then (1.15 : ℚ)
        else if r.distanceKm / r.durationHours > 80 then 0.95 else 1) := rfl
  have htraffic : ((estimateRouteAdjustments r).traffic = 1.1 ↔
      ∃ ws, r.warnings = some ws ∧ ∃ w ∈ ws,
        (strContains (strToLower w) "traffic" = true ∨
          strContains (strToLower w) "congestion" = true)) ∧
      ((¬ ∃ ws, r.warnings = some ws ∧ ∃ w ∈ ws,
          (strContains (strToLower w) "traffic" = true ∨
            strContains (strToLower w) "congestion" = true)) →
        (estimateRouteAdjustments r).traffic = 1) := by
    unfold estimateRouteAdjustments
    dsimp only
    rcases hw : r.warnings with _ | ws
    · dsimp only
      refine ⟨⟨fun habs => ?_, ?_⟩, fun _ => rfl⟩
      · norm_num at habs
      · rintro ⟨ws2, hsome, -⟩
        exact Option.noConfusion hsome
    · dsimp only
      rcases hany : ws.any (fun warning =>
          strContains (strToLower warning) "traffic" ||
          strContains (strToLower warning) "congestion") with _ | _
      · rw [if_neg (by simp [hany])]
        refine ⟨⟨fun habs => ?_, ?_⟩, fun _ => rfl⟩
        · norm_num at habs
        · rintro ⟨ws2, hsome, w, hmem, hp⟩
          obtain rfl : ws = ws2 := by simpa using hsome
          have hall := List.any_eq_false.mp hany w hmem
          simp only [Bool.or_eq_true] at hall
          exact absurd hp hall
      · rw [if_pos (by simp [hany])]
        obtain ⟨w, hmem, hp⟩ := List.any_eq_true.mp hany
        have hex : ∃ ws2, (some ws : Option (List String)) = some ws2 ∧ ∃ w2 ∈ ws2,
            (strContains (strToLower w2) "traffic" = true ∨
              strContains (strToLower w2) "congestion" = true) :=
          ⟨ws, rfl, w, hmem, by simpa [Bool.or_eq_true] using hp⟩
        exact ⟨⟨fun _ => hex, fun _ => rfl⟩, fun hne => absurd hex hne⟩
  refine ⟨htraffic.1, htraffic.2, fun _hd => ⟨?_, ?_, ?_, ?_⟩⟩
  · intro hlt
    rw [hurb, if_pos hlt]
  · intro hgt
    rw [hurb, if_neg (by linarith), if_pos hgt]
  · rintro (heq | heq) <;> rw [hurb, heq] <;> norm_num
  · intro h1 h2
    rw [hurb, if_neg h1, if_neg h2]

/-- Witness for C5 at `sampleRoute` (one traffic warning, 100 km in
2 hours: average speed 50, so the no-adjustment urban band), discharging
the positive-duration antecedent of the urban part. -/
theorem route_adjustments_match_spec_witness :
    (0 : ℚ) < sampleRoute.durationHours ∧
    ((estimateRouteAdjustments sampleRoute).traffic = 1.1 ↔
      ∃ ws, sampleRoute.warnings = some ws ∧ ∃ w ∈ ws,
        (strContains (strToLower w) "traffic" = true ∨
          strContains (strToLower w) "congestion" = true)) ∧
    (¬ sampleRoute.distanceKm / sampleRoute.durationHours < 30 →
      ¬ sampleRoute.distanceKm / sampleRoute.durationHours > 80 →
      (estimateRouteAdjustments sampleRoute).urban = 1) :=
  ⟨by norm_num [sampleRoute],
    (route_adjustments_match_spec sampleRoute).1,
    ((route_adjustments_match_spec sampleRoute).2.2
      (by norm_num [sampleRoute])).2.2.2⟩

end CarbonApp
